import Mathlib

/-!
Shallow embedding of `src/src/components/EmbeddedPlayer.tsx` (the
`EmbeddedPlayer` component and the `ViewPlaylist` page it is rendered from),
together with theorems settling the behavioural claims about playlist
navigation, add/remove of reels, tag updates, and embed-target resolution.

Conventions of the embedding:
- TypeScript `string | null` / optional fields become `Option String`;
  JavaScript truthiness of such a value (`if (x)`) is `x ≠ null ∧ x ≠ ""`.
- Dates (`Date`, `created_at`, `updatedAt`) become `Nat` timestamps supplied
  as parameters (`now`).
- The Supabase backend and localStorage are modelled explicitly: a Boolean
  parameter per remote round-trip says whether the call succeeded, and the
  localStorage playlist collection is threaded as a `List Playlist`.
- The helpers imported from `lib/utils` (`detectPlatform`, `extractAuthor`,
  `extractVideoId`) are not part of the given sources; operations that call
  them take them as function parameters, so every theorem holds for any
  implementation of those helpers.
- React `useState` setters become functional record updates on explicit
  state records; `toast.success`/`toast.error` calls are collected in a list.
-/

namespace Buildify

/-- The closed platform enum (`SocialPlatform` in `lib/utils`). -/
inductive SocialPlatform where
  | youtube
  | instagram
  | tiktok
  | facebook
  | twitter
deriving DecidableEq, Repr

/-- The lowercase string value each enum member stands for in the source. -/
def platformString : SocialPlatform → String
  | SocialPlatform.youtube => "youtube"
  | SocialPlatform.instagram => "instagram"
  | SocialPlatform.tiktok => "tiktok"
  | SocialPlatform.facebook => "facebook"
  | SocialPlatform.twitter => "twitter"

/-- `ReelItem` from `lib/utils`: one referenced video clip. -/
structure ReelItem where
  id : String
  title : String
  url : String
  platform : SocialPlatform
  author : String
  videoId : Option String
  addedAt : Nat
deriving DecidableEq, Repr

/-- A playlist tag (interface `Tag` in the source). -/
structure Tag where
  id : String
  name : String
  color : Option String
deriving DecidableEq, Repr

/-- `Playlist` from `lib/utils`. -/
structure Playlist where
  id : String
  name : String
  description : Option String
  logoUrl : Option String
  reels : List ReelItem
  tags : List Tag
  createdAt : Nat
  updatedAt : Nat
deriving DecidableEq, Repr

/-- JavaScript truthiness of a `string | null | undefined` value:
`null`/`undefined` and the empty string are falsy. -/
def truthyStr : Option String → Bool
  | some v => v ≠ ""
  | none => false

/-- The JavaScript builtin `String.prototype.trim`: strip leading and
trailing whitespace. -/
def jsTrim (s : String) : String :=
  String.mk (((s.data.dropWhile Char.isWhitespace).reverse.dropWhile
    Char.isWhitespace).reverse)

/-- JavaScript `x || d` for `x : string | null` (used for the author
default `extractAuthor(url, platform) || platform + " user"`). -/
def jsDefault (o : Option String) (d : String) : String :=
  match o with
  | some a => if a = "" then d else a
  | none => d

/-- Uppercase hex digit of a value below 16, as used by `encodeURIComponent`. -/
def hexDigit (n : Nat) : Char :=
  if n < 10 then Char.ofNat (48 + n) else Char.ofNat (55 + n)

/-- UTF-8 byte sequence of one character (code points, no surrogates). -/
def utf8Bytes (c : Char) : List Nat :=
  let n := c.toNat
  if n < 128 then [n]
  else if n < 2048 then [192 + n / 64, 128 + n % 64]
  else if n < 65536 then [224 + n / 4096, 128 + (n / 64) % 64, 128 + n % 64]
  else [240 + n / 262144, 128 + (n / 4096) % 64, 128 + (n / 64) % 64, 128 + n % 64]

/-- One byte of `encodeURIComponent` output: unreserved ASCII bytes
(alphanumerics and `- _ . ! ~ * ( )` and the apostrophe) pass through,
everything else is percent-encoded with uppercase hex. -/
def encodeByte (b : Nat) : String :=
  if (65 ≤ b ∧ b ≤ 90) ∨ (97 ≤ b ∧ b ≤ 122) ∨ (48 ≤ b ∧ b ≤ 57) ∨
      b = 45 ∨ b = 95 ∨ b = 46 ∨ b = 33 ∨ b = 126 ∨ b = 42 ∨ b = 39 ∨ b = 40 ∨ b = 41 then
    String.singleton (Char.ofNat b)
  else
    "%" ++ String.singleton (hexDigit (b / 16)) ++ String.singleton (hexDigit (b % 16))

/-- The JavaScript builtin `encodeURIComponent`, modelled as UTF-8
percent-encoding keeping the unreserved characters. -/
def encodeURIComponent (s : String) : String :=
  String.join (s.data.map (fun c => String.join ((utf8Bytes c).map encodeByte)))

/-- Local state of the `EmbeddedPlayer` component: the three `useState`
hooks `embedUrl`, `error` and `showFallback`. -/
structure PlayerState where
  embedUrl : Option String
  error : Option String
  showFallback : Bool
deriving DecidableEq, Repr

/-- YouTube embed template (line 31 of the source). -/
def youtubeEmbedUrl (v : String) (isPlaying : Bool) : String :=
  "https://www.youtube.com/embed/" ++ v ++ "?autoplay=" ++
    (if isPlaying then "1" else "0") ++ "&rel=0&modestbranding=1"

/-- Instagram embed template (line 38). -/
def instagramEmbedUrl (v : String) : String :=
  "https://www.instagram.com/p/" ++ v ++ "/embed/"

/-- TikTok embed template (line 45). -/
def tiktokEmbedUrl (v : String) : String :=
  "https://www.tiktok.com/embed/v2/" ++ v

/-- Facebook embed template (line 52): the original page URL is
URL-encoded into the `href` query parameter; the video id is not used. -/
def facebookEmbedUrl (pageUrl : String) : String :=
  "https://www.facebook.com/plugins/video.php?href=" ++ encodeURIComponent pageUrl ++
    "&show_text=false&width=560"

/-- The guarded template application `if (reel.videoId) { url = ... }`:
the guard is JavaScript truthiness, so `null` and `""` both yield no URL. -/
def embedFromId (f : String → String) (videoId : Option String) : Option String :=
  match videoId with
  | some v => if v = "" then none else some (f v)
  | none => none

/-- `generateEmbedUrl` (lines 21-71): clears `error` and `showFallback`,
then computes the embed URL per platform; Twitter sets the fallback flag and
leaves the URL `null`.  The previous component state `s` is taken as input
because the function is written with `useState` setters. -/
def generateEmbedUrl (reel : ReelItem) (isPlaying : Bool) (s : PlayerState) : PlayerState :=
  let cleared : PlayerState := { s with error := none, showFallback := false }
  match reel.platform with
  | SocialPlatform.youtube =>
      { cleared with embedUrl := embedFromId (fun v => youtubeEmbedUrl v isPlaying) reel.videoId }
  | SocialPlatform.instagram =>
      { cleared with embedUrl := embedFromId instagramEmbedUrl reel.videoId }
  | SocialPlatform.tiktok =>
      { cleared with embedUrl := embedFromId tiktokEmbedUrl reel.videoId }
  | SocialPlatform.facebook =>
      { cleared with embedUrl := embedFromId (fun _ => facebookEmbedUrl reel.url) reel.videoId }
  | SocialPlatform.twitter =>
      { cleared with showFallback := true, embedUrl := none }

/-- `handleIframeError` (lines 73-76). -/
def handleIframeError (s : PlayerState) : PlayerState :=
  { s with error := some "Failed to load embedded content", showFallback := true }

/-- What the component renders: an error card, the fallback card (with its
message and its "View on ..." button label), or an iframe with a source URL. -/
inductive RenderView where
  | errorCard : String → RenderView
  | fallbackCard : String → String → RenderView
  | iframeView : String → RenderView
deriving DecidableEq, Repr

/-- The fallback paragraph (lines 103-108): tailored copy for Twitter. -/
def fallbackMessage (p : SocialPlatform) : String :=
  if p = SocialPlatform.twitter then
    "Twitter videos require viewing on the original platform"
  else
    "Embedded player not available for this content"

/-- `charAt(0).toUpperCase() + slice(1)`. -/
def capitalizeFirst (s : String) : String :=
  match s.data with
  | [] => ""
  | c :: cs => String.mk (c.toUpper :: cs)

/-- The fallback button label (line 111). -/
def viewOnLabel (p : SocialPlatform) : String :=
  "View on " ++ capitalizeFirst (platformString p)

/-- The component's render branches (lines 82-131): error card when an error
is set and the fallback flag is not, fallback card when the fallback flag is
set or there is no embed URL, otherwise the iframe. -/
def renderPlayer (reel : ReelItem) (s : PlayerState) : RenderView :=
  if s.error ≠ none ∧ s.showFallback = false then
    RenderView.errorCard (s.error.getD "")
  else if s.showFallback = true ∨ s.embedUrl = none then
    RenderView.fallbackCard (fallbackMessage reel.platform) (viewOnLabel reel.platform)
  else
    RenderView.iframeView (s.embedUrl.getD "")

/-- A `toast.success` or `toast.error` notification. -/
inductive ToastKind where
  | success
  | error
deriving DecidableEq, Repr

/-- One user-visible notification with its message. -/
structure Toast where
  kind : ToastKind
  message : String
deriving DecidableEq, Repr

/-- The `ViewPlaylist` component state relevant to the claims: the loaded
playlist, the current reel index, the play-intent flag, and the contents of
the "add reel" input field. -/
structure ViewState where
  playlist : Option Playlist
  currentReelIndex : Nat
  isPlaying : Bool
  newReelUrl : String
deriving DecidableEq, Repr

/-- `nextReel` (lines 306-311): no-op without a playlist or with no reels;
otherwise step forward, wrapping to 0 from the last reel, and reset the
playing state. -/
def nextReel (s : ViewState) : ViewState :=
  match s.playlist with
  | none => s
  | some pl =>
    if pl.reels.length = 0 then s
    else
      let nextIndex :=
        if s.currentReelIndex < pl.reels.length - 1 then s.currentReelIndex + 1 else 0
      { s with currentReelIndex := nextIndex, isPlaying := false }

/-- `prevReel` (lines 313-318): no-op without a playlist or with no reels;
otherwise step backward, wrapping to the last reel from 0, and reset the
playing state. -/
def prevReel (s : ViewState) : ViewState :=
  match s.playlist with
  | none => s
  | some pl =>
    if pl.reels.length = 0 then s
    else
      let prevIndex :=
        if s.currentReelIndex > 0 then s.currentReelIndex - 1 else pl.reels.length - 1
      { s with currentReelIndex := prevIndex, isPlaying := false }

/-- Outcome of an asynchronous mutation: the resulting component state, the
localStorage playlist collection, and the notifications shown. -/
structure OpResult where
  state : ViewState
  storage : List Playlist
  toasts : List Toast
deriving DecidableEq, Repr

/-- The reel object `addReel` builds on success (both in the Supabase branch,
where the inserted row comes back with a server id and `created_at`, and in
the localStorage branch with `uuidv4()` and `new Date()`): `title` and
`author` are the extracted author with the `platform + " user"` default,
`videoId` is the extracted id. -/
def builtReel (eA eV : String → SocialPlatform → Option String)
    (url : String) (p : SocialPlatform) (newId : String) (now : Nat) : ReelItem :=
  { id := newId
    title := jsDefault (eA url p) (platformString p ++ " user")
    url := url
    platform := p
    author := jsDefault (eA url p) (platformString p ++ " user")
    videoId := eV url p
    addedAt := now }

/-- `addReel` (lines 335-419).  `detect`, `eA`, `eV` stand for the
`lib/utils` helpers `detectPlatform`, `extractAuthor`, `extractVideoId`;
`userId` selects remote vs. localStorage mode; `dbOk` is whether the
Supabase insert succeeds; `newId` is the id the backend (or `uuidv4`)
assigns; `now` is the current timestamp. -/
def addReel (detect : String → Option SocialPlatform)
    (eA eV : String → SocialPlatform → Option String)
    (userId : Option String) (dbOk : Bool) (newId : String) (now : Nat)
    (storage : List Playlist) (s : ViewState) : OpResult :=
  match s.playlist with
  | none => ⟨s, storage, [⟨ToastKind.error, "Please enter a valid URL"⟩]⟩
  | some pl =>
    if jsTrim s.newReelUrl = "" then
      ⟨s, storage, [⟨ToastKind.error, "Please enter a valid URL"⟩]⟩
    else
      match detect s.newReelUrl with
      | none => ⟨s, storage, [⟨ToastKind.error, "Unsupported platform or invalid URL"⟩]⟩
      | some platform =>
        let newReel := builtReel eA eV s.newReelUrl platform newId now
        match userId with
        | some _ =>
          if dbOk then
            let updatedPlaylist := { pl with reels := pl.reels ++ [newReel] }
            ⟨⟨some updatedPlaylist, s.currentReelIndex, s.isPlaying, ""⟩, storage,
              [⟨ToastKind.success, "Reel added to playlist"⟩]⟩
          else
            ⟨s, storage, [⟨ToastKind.error, "Failed to add reel"⟩]⟩
        | none =>
          let updatedPlaylist := { pl with reels := pl.reels ++ [newReel], updatedAt := now }
          ⟨⟨some updatedPlaylist, s.currentReelIndex, s.isPlaying, ""⟩,
            storage.map (fun q => if q.id = pl.id then updatedPlaylist else q),
            [⟨ToastKind.success, "Reel added to playlist"⟩]⟩

/-- `removeReel` (lines 421-480): filter out the reel with the given id,
clamp the index when it falls past the end of the shortened list
(`Math.max(0, length - 1)` coincides with truncated subtraction on `Nat`),
and in localStorage mode rewrite `updatedAt` and the stored collection.
`dbOk` is whether the Supabase delete succeeds. -/
def removeReel (userId : Option String) (dbOk : Bool) (now : Nat)
    (storage : List Playlist) (s : ViewState) (reelId : String) : OpResult :=
  match s.playlist with
  | none => ⟨s, storage, []⟩
  | some pl =>
    match userId with
    | some _ =>
      if dbOk then
        let updatedReels := pl.reels.filter (fun r => r.id ≠ reelId)
        let idx :=
          if s.currentReelIndex ≥ updatedReels.length then updatedReels.length - 1
          else s.currentReelIndex
        ⟨⟨some { pl with reels := updatedReels }, idx, s.isPlaying, s.newReelUrl⟩,
          storage, [⟨ToastKind.success, "Reel removed from playlist"⟩]⟩
      else
        ⟨s, storage, [⟨ToastKind.error, "Failed to remove reel"⟩]⟩
    | none =>
      let updatedReels := pl.reels.filter (fun r => r.id ≠ reelId)
      let idx :=
        if s.currentReelIndex ≥ updatedReels.length then updatedReels.length - 1
        else s.currentReelIndex
      let updatedPlaylist := { pl with reels := updatedReels, updatedAt := now }
      ⟨⟨some updatedPlaylist, idx, s.isPlaying, s.newReelUrl⟩,
        storage.map (fun q => if q.id = pl.id then updatedPlaylist else q),
        [⟨ToastKind.success, "Reel removed from playlist"⟩]⟩

/-- `updatePlaylistTags` (lines 482-523): remote mode only; delete all tag
relations, then insert the selected ones when there are any; on success the
in-memory playlist's tags are replaced.  `deleteOk`/`insertOk` are the
outcomes of the two Supabase round-trips. -/
def updatePlaylistTags (userId : Option String) (deleteOk insertOk : Bool)
    (selectedTags : List Tag) (s : ViewState) : ViewState × List Toast :=
  match s.playlist, userId with
  | some pl, some _ =>
    if deleteOk = false then
      (s, [⟨ToastKind.error, "Failed to update tags"⟩])
    else if 0 < selectedTags.length ∧ insertOk = false then
      (s, [⟨ToastKind.error, "Failed to update tags"⟩])
    else
      ({ s with playlist := some { pl with tags := selectedTags } },
        [⟨ToastKind.success, "Tags updated"⟩])
  | _, _ => (s, [])

/-- The playlist-view index invariant: the current reel index lies in
`[0, max 0 (length - 1)]` for the loaded playlist (so it is 0 when the reel
list is empty). -/
def indexInBoundsB (s : ViewState) : Bool :=
  match s.playlist with
  | none => true
  | some pl => decide (s.currentReelIndex ≤ pl.reels.length - 1)

/-! Concrete fixtures used by the witness theorems. -/

/-- A YouTube reel with a non-empty video id. -/
def rYT : ReelItem :=
  ⟨"r1", "clip one", "https://www.youtube.com/watch?v=abc123", SocialPlatform.youtube,
    "alice", some "abc123", 10⟩

/-- An Instagram reel. -/
def rIG : ReelItem :=
  ⟨"r2", "clip two", "https://www.instagram.com/p/xyz9", SocialPlatform.instagram,
    "bob", some "xyz9", 11⟩

/-- A Twitter reel; its video id is deliberately non-null to show the
fallback does not depend on it. -/
def rTW : ReelItem :=
  ⟨"r3", "clip three", "https://twitter.com/carol/status/5", SocialPlatform.twitter,
    "carol", some "5", 12⟩

/-- A YouTube reel whose video id is the empty string (non-null but falsy). -/
def rEmptyId : ReelItem :=
  ⟨"rx", "clip x", "https://www.youtube.com/watch?v=", SocialPlatform.youtube,
    "dave", some "", 13⟩

/-- A two-reel playlist. -/
def plA : Playlist := ⟨"p1", "My list", none, none, [rYT, rIG], [], 1, 2⟩

/-- An empty playlist. -/
def plE : Playlist := ⟨"p2", "Empty", none, none, [], [], 1, 2⟩

/-- View state on `plA` at index 0, paused, with a pending URL typed in. -/
def stA : ViewState := ⟨some plA, 0, false, "https://www.youtube.com/watch?v=new1"⟩

/-- View state on `plA` at index 1, currently playing. -/
def stB : ViewState := ⟨some plA, 1, true, ""⟩

/-- View state on the empty playlist. -/
def stE : ViewState := ⟨some plE, 0, false, ""⟩

/-- Initial `EmbeddedPlayer` state. -/
def psInit : PlayerState := ⟨none, none, false⟩

/-- A player state carrying an error and the fallback flag from a
previous reel. -/
def psDirty : PlayerState := ⟨some "u", some "previous failure", true⟩

/-- Index arithmetic of `nextReel` for a non-empty list. -/
theorem next_index_eq (i N : Nat) (hN : 0 < N) (hi : i ≤ N - 1) :
    (if i < N - 1 then i + 1 else 0) = (i + 1) % N := by
  by_cases h : i < N - 1
  · rw [if_pos h, Nat.mod_eq_of_lt (by omega)]
  · rw [if_neg h]
    have hiN : i = N - 1 := by omega
    subst hiN
    rw [Nat.sub_add_cancel hN, Nat.mod_self]

/-- Index arithmetic of `prevReel` for a non-empty list. -/
theorem prev_index_eq (i N : Nat) (hN : 0 < N) (hi : i ≤ N - 1) :
    (if 0 < i then i - 1 else N - 1) = (i + N - 1) % N := by
  by_cases h : 0 < i
  · rw [if_pos h]
    have h1 : i + N - 1 = (i - 1) + N := by omega
    rw [h1, Nat.add_mod_right, Nat.mod_eq_of_lt (by omega)]
  · rw [if_neg h]
    have hi0 : i = 0 := by omega
    subst hi0
    rw [Nat.zero_add, Nat.mod_eq_of_lt (by omega)]

/-- C1: on a playlist with `N > 0` reels and current index `i ∈ [0, N-1]`,
`nextReel` sets the index to `(i+1) mod N` and `prevReel` to
`(i-1+N) mod N`; on an empty playlist both are no-ops leaving the state
unchanged. -/
theorem next_prev_circular (s : ViewState) (pl : Playlist)
    (hpl : s.playlist = some pl) :
    (0 < pl.reels.length → s.currentReelIndex ≤ pl.reels.length - 1 →
      (nextReel s).currentReelIndex = (s.currentReelIndex + 1) % pl.reels.length ∧
      (prevReel s).currentReelIndex =
        (s.currentReelIndex + pl.reels.length - 1) % pl.reels.length) ∧
    (pl.reels.length = 0 → nextReel s = s ∧ prevReel s = s) := by
  constructor
  · intro hN hi
    constructor
    · simp only [nextReel, hpl]
      rw [if_neg (by omega)]
      exact next_index_eq s.currentReelIndex pl.reels.length hN hi
    · simp only [prevReel, hpl]
      rw [if_neg (by omega)]
      simpa using prev_index_eq s.currentReelIndex pl.reels.length hN hi
  · intro h0
    constructor
    · simp only [nextReel, hpl]
      rw [if_pos h0]
    · simp only [prevReel, hpl]
      rw [if_pos h0]

/-- Witness for C1: concrete two-reel playlist at index 0, and the empty
playlist no-op. -/
theorem next_prev_circular_witness :
    stA.playlist = some plA ∧ 0 < plA.reels.length ∧
    stA.currentReelIndex ≤ plA.reels.length - 1 ∧
    (nextReel stA).currentReelIndex = (stA.currentReelIndex + 1) % plA.reels.length ∧
    (prevReel stA).currentReelIndex =
      (stA.currentReelIndex + plA.reels.length - 1) % plA.reels.length ∧
    nextReel stE = stE :=
  ⟨rfl, by decide, by decide,
    ((next_prev_circular stA plA rfl).1 (by decide) (by decide)).1,
    ((next_prev_circular stA plA rfl).1 (by decide) (by decide)).2,
    ((next_prev_circular stE plE rfl).2 (by decide)).1⟩

/-- C7: the embed resolver recomputes its whole state from the reel and the
play intent alone — its result does not depend on the previous component
state (error/fallback are cleared before the new target is computed), and
the recomputed error field is always clear. -/
theorem generateEmbedUrl_no_carryover (reel : ReelItem) (playing : Bool)
    (s1 s2 : PlayerState) :
    generateEmbedUrl reel playing s1 = generateEmbedUrl reel playing s2 ∧
    (generateEmbedUrl reel playing s1).error = none := by
  cases h : reel.platform <;> simp [generateEmbedUrl, h]

/-- C4: for a reel on the Twitter platform, regardless of its video id and
of the previous player state, the resolver computes no iframe target
(`embedUrl = null`), sets the fallback flag, and the component renders the
tailored "View on Twitter" fallback card — never an iframe. -/
theorem twitter_embed_fallback (reel : ReelItem) (playing : Bool) (s : PlayerState)
    (h : reel.platform = SocialPlatform.twitter) :
    (generateEmbedUrl reel playing s).embedUrl = none ∧
    (generateEmbedUrl reel playing s).showFallback = true ∧
    renderPlayer reel (generateEmbedUrl reel playing s) =
      RenderView.fallbackCard "Twitter videos require viewing on the original platform"
        "View on Twitter" ∧
    ∀ src, renderPlayer reel (generateEmbedUrl reel playing s) ≠ RenderView.iframeView src := by
  refine ⟨?_, ?_, ?_, ?_⟩ <;>
    simp [generateEmbedUrl, h, renderPlayer, fallbackMessage, viewOnLabel, platformString,
      capitalizeFirst]

/-- Witness for C4: the concrete Twitter reel (with a non-null video id)
renders the fallback card from a dirty previous state. -/
theorem twitter_embed_fallback_witness :
    rTW.platform = SocialPlatform.twitter ∧
    (generateEmbedUrl rTW true psDirty).embedUrl = none ∧
    renderPlayer rTW (generateEmbedUrl rTW true psDirty) =
      RenderView.fallbackCard "Twitter videos require viewing on the original platform"
        "View on Twitter" :=
  ⟨rfl, (twitter_embed_fallback rTW true psDirty rfl).1,
    (twitter_embed_fallback rTW true psDirty rfl).2.2.1⟩

/-- Counterexample to C8 as stated: a YouTube reel whose `videoId` is the
empty string is non-null, yet the resolver computes no embed target at all
(the JavaScript guard `if (reel.videoId)` treats `""` as falsy), so the
embed target is not the platform template keyed by that identifier. -/
theorem platform_embed_templates_counterexample :
    rEmptyId.videoId = some "" ∧ rEmptyId.platform = SocialPlatform.youtube ∧
    (generateEmbedUrl rEmptyId true psInit).embedUrl = none := by
  refine ⟨rfl, rfl, ?_⟩
  simp [generateEmbedUrl, rEmptyId, embedFromId, psInit]

/-- C8 (amended): for every reel with a non-null, non-empty `videoId`, the
embed target is the platform's fixed string template keyed by that
identifier (YouTube, Instagram, TikTok); for Facebook the target instead
embeds the URL-encoded original page URL as a query parameter rather than
the identifier. -/
theorem platform_embed_templates (reel : ReelItem) (playing : Bool) (s : PlayerState)
    (v : String) (hv : reel.videoId = some v) (hne : v ≠ "") :
    (reel.platform = SocialPlatform.youtube →
      (generateEmbedUrl reel playing s).embedUrl = some (youtubeEmbedUrl v playing)) ∧
    (reel.platform = SocialPlatform.instagram →
      (generateEmbedUrl reel playing s).embedUrl = some (instagramEmbedUrl v)) ∧
    (reel.platform = SocialPlatform.tiktok →
      (generateEmbedUrl reel playing s).embedUrl = some (tiktokEmbedUrl v)) ∧
    (reel.platform = SocialPlatform.facebook →
      (generateEmbedUrl reel playing s).embedUrl =
        some ("https://www.facebook.com/plugins/video.php?href=" ++
          encodeURIComponent reel.url ++ "&show_text=false&width=560")) := by
  refine ⟨?_, ?_, ?_, ?_⟩ <;> intro h <;>
    simp [generateEmbedUrl, h, embedFromId, hv, hne, facebookEmbedUrl]

/-- Witness for C8 (amended): the concrete YouTube reel yields the YouTube
template at its id, and a concrete Instagram reel yields its template. -/
theorem platform_embed_templates_witness :
    rYT.videoId = some "abc123" ∧ ("abc123" : String) ≠ "" ∧
    (generateEmbedUrl rYT true psInit).embedUrl = some (youtubeEmbedUrl "abc123" true) ∧
    (generateEmbedUrl rIG false psInit).embedUrl = some (instagramEmbedUrl "xyz9") :=
  ⟨rfl, by decide,
    (platform_embed_templates rYT true psInit "abc123" rfl (by decide)).1 rfl,
    (platform_embed_templates rIG false psInit "xyz9" rfl (by decide)).2.1 rfl⟩

/-- Removing an id that occurs exactly once shortens the list by one. -/
theorem length_filter_ne_of_count_one (l : List ReelItem) (rid : String)
    (h1 : (l.map ReelItem.id).count rid = 1) :
    (l.filter (fun r => r.id ≠ rid)).length = l.length - 1 := by
  induction l with
  | nil => simp at h1
  | cons r t ih =>
    rw [List.map_cons, List.count_cons] at h1
    by_cases hr : r.id = rid
    · have ht : (t.map ReelItem.id).count rid = 0 := by
        simp [hr] at h1
        omega
      have hall : ∀ x ∈ t, x.id ≠ rid := by
        intro x hx hxe
        have hmem : rid ∈ t.map ReelItem.id := List.mem_map.mpr ⟨x, hx, hxe⟩
        rw [← List.count_pos_iff] at hmem
        omega
      have hfil : t.filter (fun r => r.id ≠ rid) = t := by
        rw [List.filter_eq_self]
        intro x hx
        simpa using hall x hx
      simp [List.filter_cons, hr, hfil]
      exact hall
    · have ht : (t.map ReelItem.id).count rid = 1 := by
        simp [hr] at h1
        omega
      have hne : 0 < t.length := by
        by_contra h0
        have ht0 : t = [] := by
          cases t with
          | nil => rfl
          | cons a b => simp at h0
        subst ht0
        simp at ht
      have hih := ih ht
      simp [List.filter_cons, hr] at hih ⊢
      omega

/-- `nextReel` keeps the current index inside the playlist bounds. -/
theorem next_bound (s : ViewState) (h : indexInBoundsB s = true) :
    indexInBoundsB (nextReel s) = true := by
  cases hpl : s.playlist with
  | none => simpa [nextReel, hpl] using h
  | some pl =>
    by_cases h0 : pl.reels.length = 0
    · simpa [nextReel, hpl, h0] using h
    · simp [nextReel, hpl, h0, indexInBoundsB]
      split <;> omega

/-- `prevReel` keeps the current index inside the playlist bounds. -/
theorem prev_bound (s : ViewState) (h : indexInBoundsB s = true) :
    indexInBoundsB (prevReel s) = true := by
  cases hpl : s.playlist with
  | none => simpa [prevReel, hpl] using h
  | some pl =>
    by_cases h0 : pl.reels.length = 0
    · simpa [prevReel, hpl, h0] using h
    · have h' : s.currentReelIndex ≤ pl.reels.length - 1 := by
        simpa [indexInBoundsB, hpl] using h
      simp [prevReel, hpl, h0, indexInBoundsB]
      split <;> omega

/-- `addReel` keeps the current index inside the playlist bounds. -/
theorem add_bound (detect : String → Option SocialPlatform)
    (eA eV : String → SocialPlatform → Option String)
    (userId : Option String) (dbOk : Bool) (newId : String) (now : Nat)
    (storage : List Playlist) (s : ViewState) (h : indexInBoundsB s = true) :
    indexInBoundsB (addReel detect eA eV userId dbOk newId now storage s).state = true := by
  cases hpl : s.playlist with
  | none => simpa [addReel, hpl] using h
  | some pl =>
    have h' : s.currentReelIndex ≤ pl.reels.length - 1 := by
      simpa [indexInBoundsB, hpl] using h
    by_cases htrim : jsTrim s.newReelUrl = ""
    · simpa [addReel, hpl, htrim] using h
    · cases hdet : detect s.newReelUrl with
      | none => simpa [addReel, hpl, htrim, hdet] using h
      | some p =>
        cases userId with
        | none =>
          simp [addReel, hpl, htrim, hdet, indexInBoundsB]
          omega
        | some u =>
          cases dbOk with
          | false => simpa [addReel, hpl, htrim, hdet] using h
          | true =>
            simp [addReel, hpl, htrim, hdet, indexInBoundsB]
            omega

/-- A successful `removeReel` clamps the index into the bounds of the
shortened list, for any removed id and any prior index. -/
theorem remove_bound_success (userId : Option String) (now : Nat)
    (storage : List Playlist) (s : ViewState) (pl : Playlist) (rid : String)
    (hpl : s.playlist = some pl) :
    indexInBoundsB (removeReel userId true now storage s rid).state = true := by
  cases userId with
  | none =>
    simp [removeReel, hpl, indexInBoundsB]
    split <;> omega
  | some u =>
    simp [removeReel, hpl, indexInBoundsB]
    split <;> omega

/-- `removeReel` keeps the current index inside the playlist bounds. -/
theorem remove_bound (userId : Option String) (dbOk : Bool) (now : Nat)
    (storage : List Playlist) (s : ViewState) (rid : String)
    (h : indexInBoundsB s = true) :
    indexInBoundsB (removeReel userId dbOk now storage s rid).state = true := by
  cases hpl : s.playlist with
  | none => simpa [removeReel, hpl] using h
  | some pl =>
    cases dbOk with
    | true => exact remove_bound_success userId now storage s pl rid hpl
    | false =>
      cases userId with
      | none => exact remove_bound_success none now storage s pl rid hpl
      | some u => simpa [removeReel, hpl] using h

/-- `addReel` never changes the play-intent flag. -/
theorem add_isPlaying (detect : String → Option SocialPlatform)
    (eA eV : String → SocialPlatform → Option String)
    (userId : Option String) (dbOk : Bool) (newId : String) (now : Nat)
    (storage : List Playlist) (s : ViewState) :
    (addReel detect eA eV userId dbOk newId now storage s).state.isPlaying = s.isPlaying := by
  cases hpl : s.playlist with
  | none => simp [addReel, hpl]
  | some pl =>
    by_cases htrim : jsTrim s.newReelUrl = ""
    · simp [addReel, hpl, htrim]
    · cases hdet : detect s.newReelUrl with
      | none => simp [addReel, hpl, htrim, hdet]
      | some p =>
        cases userId with
        | none => simp [addReel, hpl, htrim, hdet]
        | some u => cases dbOk <;> simp [addReel, hpl, htrim, hdet]

/-- `removeReel` never changes the play-intent flag. -/
theorem remove_isPlaying (userId : Option String) (dbOk : Bool) (now : Nat)
    (storage : List Playlist) (s : ViewState) (rid : String) :
    (removeReel userId dbOk now storage s rid).state.isPlaying = s.isPlaying := by
  cases hpl : s.playlist with
  | none => simp [removeReel, hpl]
  | some pl =>
    cases userId with
    | none => simp [removeReel, hpl]
    | some u => cases dbOk <;> simp [removeReel, hpl]

/-- C2: on a playlist with `N > 1` reels and current index `i < N`, removing
the reel at the current index (its id occurring exactly once) leaves the
current index at `min i (N-2)`; and after removing any reel whatsoever the
index lies within the bounds of the shortened list. -/
theorem removeReel_clamps_current (userId : Option String) (now : Nat)
    (storage : List Playlist) (s : ViewState) (pl : Playlist) (rid : String)
    (hpl : s.playlist = some pl)
    (hN : 1 < pl.reels.length)
    (hi : s.currentReelIndex < pl.reels.length)
    (hat : (pl.reels[s.currentReelIndex]?).map ReelItem.id = some rid)
    (hone : (pl.reels.map ReelItem.id).count rid = 1) :
    (removeReel userId true now storage s rid).state.currentReelIndex =
      min s.currentReelIndex (pl.reels.length - 2) ∧
    ∀ anyId, indexInBoundsB (removeReel userId true now storage s anyId).state = true := by
  have hlen := length_filter_ne_of_count_one pl.reels rid hone
  simp at hlen
  constructor
  · cases userId with
    | none =>
      simp [removeReel, hpl]
      split <;> omega
    | some u =>
      simp [removeReel, hpl]
      split <;> omega
  · intro anyId
    exact remove_bound_success userId now storage s pl anyId hpl

/-- Witness for C2: removing the last reel of the concrete two-reel playlist
while it is current clamps the index from 1 to 0. -/
theorem removeReel_clamps_current_witness :
    stB.playlist = some plA ∧ 1 < plA.reels.length ∧
    stB.currentReelIndex < plA.reels.length ∧
    (plA.reels[stB.currentReelIndex]?).map ReelItem.id = some "r2" ∧
    (plA.reels.map ReelItem.id).count "r2" = 1 ∧
    (removeReel none true 7 [plA] stB "r2").state.currentReelIndex =
      min stB.currentReelIndex (plA.reels.length - 2) :=
  ⟨rfl, by decide, by decide, by decide, by decide,
    (removeReel_clamps_current none 7 [plA] stB plA "r2" rfl (by decide) (by decide)
      (by decide) (by decide)).1⟩

/-- Counterexample to C3 as stated: with the play-intent flag on, removing a
reel (and likewise adding one) leaves the flag on — neither operation resets
it to paused. -/
theorem add_remove_play_reset_counterexample :
    stB.isPlaying = true ∧
    (removeReel none true 7 [plA] stB "r1").state.isPlaying = true ∧
    (addReel (fun _ => some SocialPlatform.youtube) (fun _ _ => none) (fun _ _ => none)
      none true "n1" 7 [plA] (ViewState.mk (some plA) 0 true "u")).state.isPlaying = true :=
  ⟨rfl, (remove_isPlaying none true 7 [plA] stB "r1").trans rfl,
    (add_isPlaying (fun _ => some SocialPlatform.youtube) (fun _ _ => none) (fun _ _ => none)
      none true "n1" 7 [plA] (ViewState.mk (some plA) 0 true "u")).trans rfl⟩

/-- C3 (amended): every add and every remove keeps the current reel index
within the bounds of the resulting reel list (remove re-clamps it
explicitly, add appends so the bound is preserved), and both leave the
play-intent flag unchanged — neither resets it to paused. -/
theorem add_remove_bounds_play_intent (detect : String → Option SocialPlatform)
    (eA eV : String → SocialPlatform → Option String)
    (userId : Option String) (dbOk : Bool) (newId rid : String) (now : Nat)
    (storage : List Playlist) (s : ViewState)
    (h : indexInBoundsB s = true) :
    indexInBoundsB (addReel detect eA eV userId dbOk newId now storage s).state = true ∧
    indexInBoundsB (removeReel userId dbOk now storage s rid).state = true ∧
    (addReel detect eA eV userId dbOk newId now storage s).state.isPlaying = s.isPlaying ∧
    (removeReel userId dbOk now storage s rid).state.isPlaying = s.isPlaying :=
  ⟨add_bound detect eA eV userId dbOk newId now storage s h,
    remove_bound userId dbOk now storage s rid h,
    add_isPlaying detect eA eV userId dbOk newId now storage s,
    remove_isPlaying userId dbOk now storage s rid⟩

/-- Witness for C3 (amended) at the concrete playing state. -/
theorem add_remove_bounds_play_intent_witness :
    indexInBoundsB stB = true ∧
    indexInBoundsB (removeReel none true 7 [plA] stB "r1").state = true ∧
    (removeReel none true 7 [plA] stB "r1").state.isPlaying = stB.isPlaying :=
  ⟨by decide,
    (add_remove_bounds_play_intent (fun _ => none) (fun _ _ => none) (fun _ _ => none)
      none true "n1" "r1" 7 [plA] stB (by decide)).2.1,
    (add_remove_bounds_play_intent (fun _ => none) (fun _ _ => none) (fun _ _ => none)
      none true "n1" "r1" 7 [plA] stB (by decide)).2.2.2⟩

/-- C9: each of next, previous, add-reel and remove-reel preserves the
invariant that the current reel index lies in `[0, max 0 (N-1)]` for the
resulting reel list (the index is 0 when the list is empty). -/
theorem ops_preserve_index_invariant (detect : String → Option SocialPlatform)
    (eA eV : String → SocialPlatform → Option String)
    (userId : Option String) (dbOk : Bool) (newId rid : String) (now : Nat)
    (storage : List Playlist) (s : ViewState)
    (h : indexInBoundsB s = true) :
    indexInBoundsB (nextReel s) = true ∧
    indexInBoundsB (prevReel s) = true ∧
    indexInBoundsB (addReel detect eA eV userId dbOk newId now storage s).state = true ∧
    indexInBoundsB (removeReel userId dbOk now storage s rid).state = true :=
  ⟨next_bound s h, prev_bound s h,
    add_bound detect eA eV userId dbOk newId now storage s h,
    remove_bound userId dbOk now storage s rid h⟩

/-- Witness for C9 at the concrete two-reel state and operations. -/
theorem ops_preserve_index_invariant_witness :
    indexInBoundsB stA = true ∧
    indexInBoundsB (nextReel stA) = true ∧
    indexInBoundsB (removeReel (some "u7") true 7 [] stA "r1").state = true :=
  ⟨by decide,
    (ops_preserve_index_invariant (fun _ => none) (fun _ _ => none) (fun _ _ => none)
      (some "u7") true "n1" "r1" 7 [] stA (by decide)).1,
    (ops_preserve_index_invariant (fun _ => none) (fun _ _ => none) (fun _ _ => none)
      (some "u7") true "n1" "r1" 7 [] stA (by decide)).2.2.2⟩

/-- View state on `plA` with a short pending URL, used to drive `addReel`. -/
def stC : ViewState := ⟨some plA, 0, false, "u"⟩

/-- View state on `plA` whose pending URL is whitespace only. -/
def stN : ViewState := ⟨some plA, 0, false, " "⟩

/-- C5: in remote mode, when the backend call of add-reel, remove-reel or
update-tags fails, the whole in-memory view state is left unchanged (and so
is the local storage) and exactly one user-visible error toast is shown; the
in-memory state is thus updated only after the operation succeeds. -/
theorem remote_failure_leaves_state (detect : String → Option SocialPlatform)
    (eA eV : String → SocialPlatform → Option String)
    (u newId rid : String) (now : Nat) (storage : List Playlist)
    (deleteOk insertOk : Bool) (selectedTags : List Tag)
    (s : ViewState) (pl : Playlist) (p : SocialPlatform)
    (hpl : s.playlist = some pl)
    (htrim : jsTrim s.newReelUrl ≠ "")
    (hdet : detect s.newReelUrl = some p) :
    addReel detect eA eV (some u) false newId now storage s =
      ⟨s, storage, [⟨ToastKind.error, "Failed to add reel"⟩]⟩ ∧
    removeReel (some u) false now storage s rid =
      ⟨s, storage, [⟨ToastKind.error, "Failed to remove reel"⟩]⟩ ∧
    (deleteOk = false ∨ (selectedTags ≠ [] ∧ insertOk = false) →
      updatePlaylistTags (some u) deleteOk insertOk selectedTags s =
        (s, [⟨ToastKind.error, "Failed to update tags"⟩])) := by
  refine ⟨?_, ?_, ?_⟩
  · simp [addReel, hpl, htrim, hdet]
  · simp [removeReel, hpl]
  · intro hfail
    rcases hfail with hdel | ⟨hne, hins⟩
    · simp [updatePlaylistTags, hpl, hdel]
    · have hlen : 0 < selectedTags.length := List.length_pos.mpr hne
      cases deleteOk with
      | false => simp [updatePlaylistTags, hpl]
      | true => simp [updatePlaylistTags, hpl, hlen, hins]

/-- Witness for C5: concrete failing remote calls leave the concrete state
untouched and report the matching error toasts. -/
theorem remote_failure_leaves_state_witness :
    stC.playlist = some plA ∧ jsTrim stC.newReelUrl ≠ "" ∧
    addReel (fun _ => some SocialPlatform.youtube) (fun _ _ => none) (fun _ _ => none)
      (some "u7") false "n1" 7 [] stC =
        ⟨stC, [], [⟨ToastKind.error, "Failed to add reel"⟩]⟩ ∧
    removeReel (some "u7") false 7 [] stC "r1" =
      ⟨stC, [], [⟨ToastKind.error, "Failed to remove reel"⟩]⟩ ∧
    updatePlaylistTags (some "u7") false true [] stC =
      (stC, [⟨ToastKind.error, "Failed to update tags"⟩]) :=
  ⟨rfl, by decide,
    (remote_failure_leaves_state (fun _ => some SocialPlatform.youtube) (fun _ _ => none)
      (fun _ _ => none) "u7" "n1" "r1" 7 [] false true [] stC plA SocialPlatform.youtube
      rfl (by decide) rfl).1,
    (remote_failure_leaves_state (fun _ => some SocialPlatform.youtube) (fun _ _ => none)
      (fun _ _ => none) "u7" "n1" "r1" 7 [] false true [] stC plA SocialPlatform.youtube
      rfl (by decide) rfl).2.1,
    (remote_failure_leaves_state (fun _ => some SocialPlatform.youtube) (fun _ _ => none)
      (fun _ _ => none) "u7" "n1" "r1" 7 [] false true [] stC plA SocialPlatform.youtube
      rfl (by decide) rfl).2.2 (Or.inl rfl)⟩

/-- C6: an add-reel request with an empty (after trimming) URL, or whose URL
the platform classifier rejects, leaves the whole state (and the reel
sequence in particular) unchanged and reports a user-visible error; when the
request goes through, the new reel is appended at the end of the ordered
reel sequence. -/
theorem addReel_rejects_or_appends (detect : String → Option SocialPlatform)
    (eA eV : String → SocialPlatform → Option String)
    (userId : Option String) (dbOk : Bool) (newId : String) (now : Nat)
    (storage : List Playlist) (s : ViewState) (pl : Playlist)
    (hpl : s.playlist = some pl) :
    (jsTrim s.newReelUrl = "" →
      addReel detect eA eV userId dbOk newId now storage s =
        ⟨s, storage, [⟨ToastKind.error, "Please enter a valid URL"⟩]⟩) ∧
    (jsTrim s.newReelUrl ≠ "" → detect s.newReelUrl = none →
      addReel detect eA eV userId dbOk newId now storage s =
        ⟨s, storage, [⟨ToastKind.error, "Unsupported platform or invalid URL"⟩]⟩) ∧
    (∀ p, jsTrim s.newReelUrl ≠ "" → detect s.newReelUrl = some p →
      userId = none ∨ dbOk = true →
      ((addReel detect eA eV userId dbOk newId now storage s).state.playlist.map
          Playlist.reels) =
        some (pl.reels ++ [builtReel eA eV s.newReelUrl p newId now])) := by
  refine ⟨?_, ?_, ?_⟩
  · intro ht
    simp [addReel, hpl, ht]
  · intro ht hd
    simp [addReel, hpl, ht, hd]
  · intro p ht hd hok
    cases userId with
    | none => simp [addReel, hpl, ht, hd]
    | some uid =>
      have hdb : dbOk = true := by
        rcases hok with h0 | h0
        · exact absurd h0 (by simp)
        · exact h0
      subst hdb
      simp [addReel, hpl, ht, hd]

/-- Witness for C6: a whitespace-only URL is rejected with the error toast,
and a classified URL gets its reel appended at the end. -/
theorem addReel_rejects_or_appends_witness :
    jsTrim stN.newReelUrl = "" ∧
    addReel (fun _ => none) (fun _ _ => none) (fun _ _ => none) none true "n1" 7 [plA] stN =
      ⟨stN, [plA], [⟨ToastKind.error, "Please enter a valid URL"⟩]⟩ ∧
    jsTrim stC.newReelUrl ≠ "" ∧
    ((addReel (fun _ => some SocialPlatform.tiktok) (fun _ _ => none) (fun _ _ => none)
        none true "n1" 7 [plA] stC).state.playlist.map Playlist.reels) =
      some (plA.reels ++
        [builtReel (fun _ _ => none) (fun _ _ => none) stC.newReelUrl
          SocialPlatform.tiktok "n1" 7]) :=
  ⟨by decide,
    (addReel_rejects_or_appends (fun _ => none) (fun _ _ => none) (fun _ _ => none)
      none true "n1" 7 [plA] stN plA rfl).1 (by decide),
    by decide,
    (addReel_rejects_or_appends (fun _ => some SocialPlatform.tiktok) (fun _ _ => none)
      (fun _ _ => none) none true "n1" 7 [plA] stC plA rfl).2.2 SocialPlatform.tiktok
      (by decide) rfl (Or.inl rfl)⟩

/-- C10: removing an id that occurs nowhere in the playlist is a successful
no-op on the reel sequence and the current index: in remote mode the whole
state is unchanged, in local mode only `updatedAt` is rewritten (and the
stored collection re-saved accordingly), and the success toast is still
shown. -/
theorem removeReel_absent_id (now : Nat) (storage : List Playlist)
    (s : ViewState) (pl : Playlist) (rid : String)
    (hpl : s.playlist = some pl)
    (habs : ∀ r ∈ pl.reels, r.id ≠ rid)
    (h : indexInBoundsB s = true) :
    (∀ uid : String, removeReel (some uid) true now storage s rid =
      ⟨s, storage, [⟨ToastKind.success, "Reel removed from playlist"⟩]⟩) ∧
    removeReel none true now storage s rid =
      ⟨⟨some { pl with updatedAt := now }, s.currentReelIndex, s.isPlaying, s.newReelUrl⟩,
        storage.map (fun q => if q.id = pl.id then { pl with updatedAt := now } else q),
        [⟨ToastKind.success, "Reel removed from playlist"⟩]⟩ := by
  obtain ⟨spl, sidx, splay, surl⟩ := s
  simp only at hpl
  subst hpl
  have hidx : sidx ≤ pl.reels.length - 1 := by
    simpa [indexInBoundsB] using h
  have hfil : pl.reels.filter (fun r => !decide (r.id = rid)) = pl.reels := by
    rw [List.filter_eq_self]
    intro x hx
    simpa using habs x hx
  have hidx2 : (if pl.reels.length ≤ sidx then pl.reels.length - 1 else sidx) = sidx := by
    split <;> omega
  constructor
  · intro uid
    simp [removeReel, hfil, hidx2]
  · simp [removeReel, hfil, hidx2]

/-- Witness for C10: removing the absent id "zz" from the concrete playlist
in both modes. -/
theorem removeReel_absent_id_witness :
    stB.playlist = some plA ∧ indexInBoundsB stB = true ∧
    removeReel (some "u7") true 7 [plA] stB "zz" =
      ⟨stB, [plA], [⟨ToastKind.success, "Reel removed from playlist"⟩]⟩ ∧
    removeReel none true 7 [plA] stB "zz" =
      ⟨⟨some { plA with updatedAt := 7 }, stB.currentReelIndex, stB.isPlaying, stB.newReelUrl⟩,
        [plA].map (fun q => if q.id = plA.id then { plA with updatedAt := 7 } else q),
        [⟨ToastKind.success, "Reel removed from playlist"⟩]⟩ :=
  ⟨rfl, by decide,
    (removeReel_absent_id 7 [plA] stB plA "zz" rfl (by decide) (by decide)).1 "u7",
    (removeReel_absent_id 7 [plA] stB plA "zz" rfl (by decide) (by decide)).2⟩

end Buildify
